import Mathlib

/-!
Shallow embedding of src/services/geminiService.ts from the
virtual-photographer repository: the prompt builder, the two-tier
model-fallback generation flow (generateStudioShot) and the response
image extractor (extractImage), together with the pieces of the
JavaScript dynamic semantics (truthiness, optional chaining, property
access on null throwing a TypeError) that the code relies on.
-/

/-- A JavaScript value as it can appear in a remote-service response
envelope.  `null` also stands for `undefined`: the two are
interchangeable for every operation the embedded code performs
(truthiness, optional chaining, throwing on property access). -/
inductive Json where
  | null : Json
  | str : String → Json
  | num : Int → Json
  | bool : Bool → Json
  | arr : List Json → Json
  | obj : List (String × Json) → Json

/-- JavaScript truthiness of a value. -/
def truthy : Json → Bool
  | Json.null => false
  | Json.bool b => b
  | Json.num n => n != 0
  | Json.str s => s != ""
  | Json.arr _ => true
  | Json.obj _ => true

/-- A value is nullish (null or undefined, both collapsed into `Json.null`). -/
def isNullish : Json → Bool
  | Json.null => true
  | _ => false

/-- Property access `o[k]` on a value already known not to be nullish:
on an object it looks the key up (a missing key gives undefined), on any
other non-nullish value every property is undefined. -/
def jsField : Json → String → Json
  | Json.obj fs, k => (fs.lookup k).getD Json.null
  | _, _ => Json.null

/-- Plain (non-optional) property access `o.k`: throws a TypeError when
the receiver is nullish, otherwise behaves like `jsField`. -/
def getFieldE : Json → String → Except Unit Json
  | Json.null, _ => Except.error ()
  | j, k => Except.ok (jsField j k)

/-- Index access `o[i]` on a non-nullish value: element of an array,
character of a string, numeric-keyed field of an object, undefined
otherwise. -/
def jsIndex : Json → Nat → Json
  | Json.arr xs, i => (xs.get? i).getD Json.null
  | Json.str s, i =>
    match s.data.get? i with
    | some c => Json.str (String.mk [c])
    | none => Json.null
  | Json.obj fs, i => (fs.lookup (toString i)).getD Json.null
  | _, _ => Json.null

/-- `for..of` iteration: arrays iterate their elements, strings iterate
their characters (as one-character strings), every other value is not
iterable and throws a TypeError. -/
def jsIterate : Json → Except Unit (List Json)
  | Json.arr xs => Except.ok xs
  | Json.str s => Except.ok (s.data.map (fun c => Json.str (String.mk [c])))
  | _ => Except.error ()

mutual

/-- Template-literal stringification of a value interpolated with a
dollar-brace hole, and of the elements of an array joined by commas. -/
def jsToString : Json → String
  | Json.str s => s
  | Json.num n => toString n
  | Json.bool b => if b then "true" else "false"
  | Json.null => "null"
  | Json.obj _ => "[object Object]"
  | Json.arr xs => String.intercalate "," (jsElems xs)

/-- Stringification of array elements: nullish elements stringify to
the empty string inside an array. -/
def jsElems : List Json → List String
  | [] => []
  | Json.null :: rest => "" :: jsElems rest
  | j :: rest => jsToString j :: jsElems rest

end

/-- The loop body of `extractImage` (geminiService.ts lines 146-150):
scan the parts in order, return the first part whose `inlineData` and
`inlineData.data` are both truthy, re-encoded as a PNG data URI.  The
plain access `part.inlineData` throws when a part is nullish. -/
def scanParts : List Json → Except Unit (Option String)
  | [] => Except.ok none
  | p :: ps =>
    match getFieldE p "inlineData" with
    | Except.error e => Except.error e
    | Except.ok inl =>
      if truthy inl then
        if truthy (jsField inl "data") then
          Except.ok (some ("data:image/png;base64," ++ jsToString (jsField inl "data")))
        else scanParts ps
      else scanParts ps

/-- The body of the `try` block of `extractImage` (geminiService.ts
lines 143-151): evaluate `response.candidates?.[0]?.content?.parts`
(the first access is plain and throws on a nullish response, the rest
are optional-chained), then, when that chain result is truthy, iterate
it looking for the first inline binary payload. -/
def extractImageCore (response : Json) : Except Unit (Option String) :=
  match getFieldE response "candidates" with
  | Except.error e => Except.error e
  | Except.ok cands =>
    let contentParts :=
      if isNullish cands then Json.null
      else
        let c0 := jsIndex cands 0
        if isNullish c0 then Json.null
        else
          let content := jsField c0 "content"
          if isNullish content then Json.null
          else jsField content "parts"
    if truthy contentParts then
      match jsIterate contentParts with
      | Except.error e => Except.error e
      | Except.ok elems => scanParts elems
    else
      Except.ok none

/-- `extractImage` (geminiService.ts lines 142-156): the try body with
every thrown error caught and mapped to null. -/
def extractImage (response : Json) : Option String :=
  match extractImageCore response with
  | Except.ok r => r
  | Except.error _ => none

/-- A well-formed response envelope holding the given content parts:
`\x7bcandidates: [\x7bcontent: \x7bparts: ...\x7d\x7d]\x7d`. -/
def mkResponse (ps : List Json) : Json :=
  Json.obj [("candidates", Json.arr [Json.obj [("content", Json.obj [("parts", Json.arr ps)])]])]

/-- A content part carrying an inline binary payload. -/
def inlinePart (data : String) : Json :=
  Json.obj [("inlineData", Json.obj [("data", Json.str data)])]

/-- A content part carrying only text. -/
def textPart (t : String) : Json :=
  Json.obj [("text", Json.str t)]

/-! ### The data model of src/types.ts that the service consumes. -/

/-- BackgroundType (types.ts line 3). -/
inductive BackgroundType where
  | solid : BackgroundType
  | gradient : BackgroundType
  | texture : BackgroundType
  | image : BackgroundType
deriving DecidableEq

/-- BackgroundOption (types.ts lines 5-12); `imageSrc` is optional. -/
structure BackgroundOption where
  id : String
  name : String
  type : BackgroundType
  value : String
  previewClass : String
  imageSrc : Option String
deriving DecidableEq

/-- LightingOption (types.ts lines 14-19). -/
structure LightingOption where
  id : String
  name : String
  value : String
  icon : String
deriving DecidableEq

/-- CameraSettings (types.ts lines 25-28).  Both fields are kept as
strings: the TypeScript union types are erased at runtime and the
service looks the direction up in a string-keyed record, with a default
for unknown keys. -/
structure CameraSettings where
  aspectRatio : String
  lightingDirection : String
deriving DecidableEq

/-- A content part of an outgoing request: either an inline binary
image attachment or instruction text (geminiService.ts lines 59-61,
81, 109-111, 119). -/
inductive ReqPart where
  | inlineData : String → String → ReqPart
  | text : String → ReqPart
deriving DecidableEq

/-- The image-size / aspect-ratio configuration block sent with the
primary call (geminiService.ts lines 88-93). -/
structure ImageConfig where
  imageSize : String
  aspectRatio : String
deriving DecidableEq

/-- One invocation of the remote generateContent endpoint: which model,
which content parts, and whether a configuration block was attached. -/
structure ModelCall where
  model : String
  parts : List ReqPart
  config : Option ImageConfig
deriving DecidableEq

/-- The observable outcome of one generateStudioShot invocation: the
returned data URI or the thrown error message, the sequence of remote
model calls that were issued, and the credential the client was
constructed with. -/
structure GenResult where
  result : Except String String
  calls : List ModelCall
  credential : String

/-! ### The service itself (src/services/geminiService.ts). -/

/-- Credential resolution (geminiService.ts line 13):
`apiKey \x7c\x7c process.env.API_KEY` — a falsy (absent or empty) caller key
falls back to the ambient environment key. -/
def resolveApiKey (apiKey : Option String) (envKey : String) : String :=
  match apiKey with
  | some k => if k = "" then envKey else k
  | none => envKey

/-- `s` starts with `p` (character-wise; an executable counterpart of
the anchored regex match and of the JS startsWith probe). -/
def strStartsWith (s p : String) : Bool :=
  p.data.isPrefixOf s.data

/-- The data-URI header strip (geminiService.ts lines 16, 64, 114):
`replace(/^data:image\/(png|jpeg|webp);base64,/, "")` removes one
matching header at the start of the string, if present. -/
def stripDataUriHeader (s : String) : String :=
  if strStartsWith s "data:image/png;base64," then s.drop ("data:image/png;base64,").length
  else if strStartsWith s "data:image/jpeg;base64," then s.drop ("data:image/jpeg;base64,").length
  else if strStartsWith s "data:image/webp;base64," then s.drop ("data:image/webp;base64,").length
  else s

/-- The direction-to-phrase record (geminiService.ts lines 26-35). -/
def directionMap (d : String) : Option String :=
  if d = "left" then some "coming from the left side"
  else if d = "right" then some "coming from the right side"
  else if d = "top" then some "overhead lighting coming from the top"
  else if d = "top-left" then some "coming from the top-left"
  else if d = "top-right" then some "coming from the top-right"
  else if d = "front" then some "direct frontal lighting"
  else if d = "bottom" then some "coming from below (uplighting)"
  else if d = "back" then some "backlighting (rim light)"
  else none

/-- `lightDirText` (geminiService.ts line 36): record lookup with the
generic default for unknown directions. -/
def lightDirText (d : String) : String :=
  (directionMap d).getD "professional studio lighting"

/-- `bgDescription` (geminiService.ts lines 18-23): the solid kind
wraps the color value in a fixed sentence, every other kind passes the
value through. -/
def bgDescription (bg : BackgroundOption) : String :=
  if bg.type = BackgroundType.solid then
    "a solid, flat, matte background of this exact color: " ++ bg.value
  else bg.value

/-- The guard of the background-image branch (geminiService.ts lines
63 and 113): the kind is image AND the imageSrc field is truthy
(present and non-empty). -/
def hasBgImage (bg : BackgroundOption) : Bool :=
  bg.type = BackgroundType.image &&
    (match bg.imageSrc with
     | some s => s != ""
     | none => false)

/-- Literal segments of the primary (pro-model) prompt template
(geminiService.ts lines 40-57). -/
def primaryPromptPre : String :=
  "\n    You are a professional commercial product photographer and high-end retoucher.\n    \n    OBJECTIVE:\n    Composite the foreground object (product) from the input image onto a new background description: \""

/-- Primary prompt template, segment between the background description
and the lighting value. -/
def primaryPromptMid1 : String :=
  "\".\n\n    STRICT RULES FOR SUBJECT PRESERVATION (DO NOT IGNORE):\n    1. THE PRODUCT IS SACRED: Do NOT redraw, stylize, or alter the internal details of the product.\n    2. PRESERVE TEXT & LOGOS: Any text, logos, or labels on the product must remain legible and unchanged.\n    3. PRESERVE TEXTURE: Keep the original surface texture and material finish of the product.\n    4. NO HALLUCINATIONS: Do not add parts to the product that are not there. The input image is the source of truth.\n    \n    PHOTOGRAPHY SETTINGS:\n    - OUTPUT QUALITY: 4K Ultra High Definition (3840x2160).\n    - LIGHTING: Apply \""

/-- Primary prompt template, segment between the lighting value and the
light-direction phrase. -/
def primaryPromptMid2 : String :=
  "\".\n    - LIGHT DIRECTION: Light source "

/-- Primary prompt template, trailing segment. -/
def primaryPromptPost : String :=
  ".\n    - SHADOWS: Cast realistic, physically accurate shadows from the product onto the new background.\n  "

/-- The primary prompt (geminiService.ts lines 40-57) assembled from
its literal segments and the three interpolated holes. -/
def primaryPromptText (bgDesc lightVal lightDir : String) : String :=
  primaryPromptPre ++ bgDesc ++ primaryPromptMid1 ++ lightVal ++ primaryPromptMid2 ++ lightDir ++ primaryPromptPost

/-- Literal segments of the two-image composition prompt template
(geminiService.ts lines 67-78). -/
def imagePromptPre : String :=
  "\n      You are an expert high-end commercial retoucher.\n      \n      TASK:\n      Composite the product from Image 1 onto the background scene in Image 2.\n\n      RULES:\n      1. PRESERVE IDENTITY: The product from Image 1 must look exactly the same in the final output. Do not alter its shape, color, or details.\n      2. PERSPECTIVE: Place the product naturally within the scene of Image 2.\n      3. LIGHTING MATCH: Apply lighting style \""

/-- Two-image prompt template, segment between the lighting value and
the light-direction phrase. -/
def imagePromptMid : String :=
  "\" with direction "

/-- Two-image prompt template, trailing segment. -/
def imagePromptPost : String :=
  " to match the background environment.\n      4. QUALITY: 4K Ultra High Definition.\n    "

/-- The two-image composition prompt (geminiService.ts lines 67-78). -/
def imagePromptText (lightVal lightDir : String) : String :=
  imagePromptPre ++ lightVal ++ imagePromptMid ++ lightDir ++ imagePromptPost

/-- The instruction text the primary attempt sends: the two-image
template when the background-image branch is taken, the detailed
text-described-scene template otherwise (geminiService.ts lines 40-79). -/
def primaryInstruction (bg : BackgroundOption) (lighting : LightingOption) (settings : CameraSettings) : String :=
  if hasBgImage bg then
    imagePromptText lighting.value (lightDirText settings.lightingDirection)
  else
    primaryPromptText (bgDescription bg) lighting.value (lightDirText settings.lightingDirection)

/-- The content parts of the primary request (geminiService.ts lines
59-81): product image first, then the background image when that
branch is taken, then the instruction text. -/
def buildPrimaryParts (imageBase64 : String) (bg : BackgroundOption) (lighting : LightingOption) (settings : CameraSettings) : List ReqPart :=
  let productBase64 := stripDataUriHeader imageBase64
  if hasBgImage bg then
    [ReqPart.inlineData "image/jpeg" productBase64,
     ReqPart.inlineData "image/jpeg" (stripDataUriHeader (bg.imageSrc.getD "")),
     ReqPart.text (primaryInstruction bg lighting settings)]
  else
    [ReqPart.inlineData "image/jpeg" productBase64,
     ReqPart.text (primaryInstruction bg lighting settings)]

/-- The simplified text-scene prompt of the fallback attempt
(geminiService.ts line 107). -/
def flashPromptText (bgDesc lightVal : String) : String :=
  "Product photography. Keep the product exactly as it looks in the original image. Do not change the product. Only change the background to: " ++ bgDesc ++ ". Lighting: " ++ lightVal ++ ". High quality 4K."

/-- The instruction text the fallback attempt sends (geminiService.ts
lines 107, 116). -/
def flashInstruction (bg : BackgroundOption) (lighting : LightingOption) : String :=
  if hasBgImage bg then
    "Composite product from image 1 into image 2. Keep product exact. High quality."
  else
    flashPromptText (bgDescription bg) lighting.value

/-- The content parts of the fallback request (geminiService.ts lines
109-119). -/
def buildFlashParts (imageBase64 : String) (bg : BackgroundOption) (lighting : LightingOption) : List ReqPart :=
  let productBase64 := stripDataUriHeader imageBase64
  if hasBgImage bg then
    [ReqPart.inlineData "image/jpeg" productBase64,
     ReqPart.inlineData "image/jpeg" (stripDataUriHeader (bg.imageSrc.getD "")),
     ReqPart.text (flashInstruction bg lighting)]
  else
    [ReqPart.inlineData "image/jpeg" productBase64,
     ReqPart.text (flashInstruction bg lighting)]

/-- `response.candidates?.[0]?.content?.parts?.[0]?.text` as evaluated
at geminiService.ts line 129: the first property access is plain and
throws on a nullish response, the rest of the chain is optional. -/
def firstPartTextE (response : Json) : Except Unit Json :=
  match getFieldE response "candidates" with
  | Except.error e => Except.error e
  | Except.ok cands =>
    if isNullish cands then Except.ok Json.null
    else
      let c0 := jsIndex cands 0
      if isNullish c0 then Except.ok Json.null
      else
        let content := jsField c0 "content"
        if isNullish content then Except.ok Json.null
        else
          let ps := jsField content "parts"
          if isNullish ps then Except.ok Json.null
          else
            let p0 := jsIndex ps 0
            if isNullish p0 then Except.ok Json.null
            else Except.ok (jsField p0 "text")

/-- Stands for the message of the TypeError the engine throws when line
129 reads a property of a nullish response; a fixed non-empty
engine-supplied string whose exact wording the code never inspects. -/
def engineTypeErrorText : String :=
  "TypeError: cannot read properties of null"

/-- Stands for the message of the TypeError the engine throws when line
130 calls substring on a truthy non-string text value. -/
def engineSubstringErrorText : String :=
  "TypeError: text.substring is not a function"

/-- The inner try body of the fallback attempt after the remote call
settles (geminiService.ts lines 121-133): the thrown error message, or
the extracted image.  An absent image leads to the refusal-text probe
at line 129 and the constructed error messages of lines 130-131. -/
def fallbackAttempt (fallbackOutcome : Except String Json) : Except String String :=
  match fallbackOutcome with
  | Except.error e => Except.error e
  | Except.ok resp =>
    match extractImage resp with
    | some img => Except.ok img
    | none =>
      match firstPartTextE resp with
      | Except.error _ => Except.error engineTypeErrorText
      | Except.ok t =>
        if truthy t then
          match t with
          | Json.str s => Except.error ("AI Refusal: " ++ s.take 100)
          | _ => Except.error engineSubstringErrorText
        else Except.error "No image generated by fallback model."

/-- Terminal error-message selection (geminiService.ts line 137):
`fallbackError.message \x7c\x7c error.message \x7c\x7c "Failed to generate image."`. -/
def terminalMessage (fbMsg primMsg : String) : String :=
  if fbMsg ≠ "" then fbMsg
  else if primMsg ≠ "" then primMsg
  else "Failed to generate image."

/-- The catch block of geminiService.ts lines 101-139: issue the
fallback call and either return its image or throw the selected
terminal message. -/
def runFallback (primMsg : String) (primaryCall flashCall : ModelCall) (credential : String) (fallbackOutcome : Except String Json) : GenResult :=
  match fallbackAttempt fallbackOutcome with
  | Except.ok img =>
    { result := Except.ok img, calls := [primaryCall, flashCall], credential := credential }
  | Except.error fe =>
    { result := Except.error (terminalMessage fe primMsg), calls := [primaryCall, flashCall], credential := credential }

/-- `generateStudioShot` (geminiService.ts lines 4-140).  The two
remote calls are modelled by the two outcome parameters: what the
primary and fallback generateContent invocations would settle with
(Except.error is a thrown error carrying its message, Except.ok is the
resolved response envelope).  The returned GenResult records the value
returned or message thrown, the remote calls actually issued in order,
and the resolved credential. -/
def generateStudioShot (imageBase64 : String) (bg : BackgroundOption)
    (lighting : LightingOption) (settings : CameraSettings) (apiKey : Option String)
    (envKey : String) (primaryOutcome fallbackOutcome : Except String Json) : GenResult :=
  let credential := resolveApiKey apiKey envKey
  let primaryCall : ModelCall :=
    { model := "gemini-3-pro-image-preview",
      parts := buildPrimaryParts imageBase64 bg lighting settings,
      config := some { imageSize := "4K", aspectRatio := settings.aspectRatio } }
  let flashCall : ModelCall :=
    { model := "gemini-2.5-flash-image",
      parts := buildFlashParts imageBase64 bg lighting,
      config := none }
  match primaryOutcome with
  | Except.ok resp =>
    match extractImage resp with
    | some img => { result := Except.ok img, calls := [primaryCall], credential := credential }
    | none => runFallback "Pro model returned no image." primaryCall flashCall credential fallbackOutcome
  | Except.error e => runFallback e primaryCall flashCall credential fallbackOutcome

/-- The inline binary attachments of a request part list, in order,
as (mimeType, data) pairs. -/
def binaryEntries : List ReqPart → List (String × String)
  | [] => []
  | ReqPart.inlineData m d :: rest => (m, d) :: binaryEntries rest
  | ReqPart.text _ :: rest => binaryEntries rest

/-- The text entries of a request part list, in order. -/
def textEntries : List ReqPart → List String
  | [] => []
  | ReqPart.inlineData _ _ :: rest => textEntries rest
  | ReqPart.text t :: rest => t :: textEntries rest

/-- Substring containment, used to state that an instruction text
embeds a phrase verbatim. -/
def containsStr (s sub : String) : Prop :=
  ∃ p q, s = p ++ sub ++ q

/-! ### Fixtures used by concrete witnesses and counterexamples. -/

/-- A preset gradient background (types.ts line 63). -/
def sampleBg : BackgroundOption :=
  { id := "gradient-sunset", name := "Sunset", type := BackgroundType.gradient,
    value := "vibrant sunset orange to purple gradient studio background",
    previewClass := "bg-gradient-to-tr from-orange-400 to-purple-500",
    imageSrc := none }

/-- A solid background as produced by the color joystick. -/
def solidSampleBg : BackgroundOption :=
  { id := "solid-red", name := "Red", type := BackgroundType.solid,
    value := "#ff0000", previewClass := "", imageSrc := none }

/-- A background of kind image carrying no background image source. -/
def bgImageNoSrc : BackgroundOption :=
  { id := "bg-img", name := "Scene", type := BackgroundType.image,
    value := "a beach scene", previewClass := "", imageSrc := none }

/-- A background of kind image carrying a background image source. -/
def bgImageWithSrc : BackgroundOption :=
  { id := "bg-img2", name := "Scene2", type := BackgroundType.image,
    value := "a beach scene", previewClass := "", imageSrc := some "BGDATA" }

/-- A preset lighting option (types.ts line 54). -/
def sampleLighting : LightingOption :=
  { id := "studio-soft", name := "Softbox",
    value := "soft, diffused professional studio lighting, even illumination, soft shadows",
    icon := "cloud" }

/-- Sample camera settings with an in-set lighting direction. -/
def sampleSettings : CameraSettings :=
  { aspectRatio := "1:1", lightingDirection := "left" }

/-! ### Helper lemmas. -/

/-- The data of an appended string is the appended data. -/
theorem strData_append (a b : String) : (a ++ b).data = a.data ++ b.data := by
  cases a; cases b; rfl

/-- Prefixing with the refusal tag never yields the empty string. -/
theorem refusalTag_append_ne_empty (s : String) : ("AI Refusal: " ++ s) ≠ "" := by
  intro h
  have hd := congrArg String.data h
  rw [strData_append] at hd
  simp at hd

/-- A take of at most 100 characters has length at most 100. -/
theorem take100_length_le (t : String) : (t.take 100).length ≤ 100 := by
  rw [String.take_eq]
  simp [List.length_take]

/-- A well-formed envelope evaluates to a scan of its parts. -/
theorem extractImageCore_mkResponse (ps : List Json) :
    extractImageCore (mkResponse ps) = scanParts ps := rfl

/-- The scan skips a text-only part. -/
theorem scanParts_textPart (t : String) (ps : List Json) :
    scanParts (textPart t :: ps) = scanParts ps := rfl

/-- The scan stops at an inline part with non-empty data and returns it
as a PNG data URI. -/
theorem scanParts_inlinePart (X : String) (hX : X ≠ "") (ps : List Json) :
    scanParts (inlinePart X :: ps) = Except.ok (some ("data:image/png;base64," ++ X)) := by
  have hx : (X != "") = true := by simpa [bne_iff_ne] using hX
  simp [scanParts, inlinePart, getFieldE, jsField, truthy, jsToString, hx]

/-- The scan skips any leading run of text-only parts. -/
theorem scanParts_skip_texts (ts : List String) :
    ∀ ps : List Json, scanParts (ts.map textPart ++ ps) = scanParts ps := by
  induction ts with
  | nil => intro ps; rfl
  | cons t ts ih =>
    intro ps
    rw [List.map_cons, List.cons_append, scanParts_textPart, ih]

/-- The credential recorded by a generation run is the resolved key. -/
theorem generateStudioShot_credential_eq (imageBase64 : String) (bg : BackgroundOption)
    (lighting : LightingOption) (settings : CameraSettings) (apiKey : Option String)
    (envKey : String) (primaryOutcome fallbackOutcome : Except String Json) :
    (generateStudioShot imageBase64 bg lighting settings apiKey envKey primaryOutcome fallbackOutcome).credential =
      resolveApiKey apiKey envKey := by
  cases primaryOutcome with
  | error e =>
    cases hf : fallbackAttempt fallbackOutcome <;>
      simp [generateStudioShot, runFallback, hf]
  | ok resp =>
    cases hx : extractImage resp with
    | some img => simp [generateStudioShot, hx]
    | none =>
      cases hf : fallbackAttempt fallbackOutcome <;>
        simp [generateStudioShot, runFallback, hx, hf]

/-! ### The claims. -/

/-- C9: extractImage is total over arbitrary response envelopes: for any
input, including null, missing candidates, missing content, or malformed
parts, it returns either a string or null, and any error the try body
raises is caught and mapped to null. -/
theorem extractImage_total (response : Json) :
    (extractImage response = none ∨ ∃ s, extractImage response = some s) ∧
    (∀ e, extractImageCore response = Except.error e → extractImage response = none) := by
  constructor
  · cases h : extractImage response with
    | none => exact Or.inl rfl
    | some s => exact Or.inr ⟨s, rfl⟩
  · intro e he
    simp [extractImage, he]

/-- C9 witness: on a null response the try body throws and extractImage
returns null. -/
theorem extractImage_total_witness :
    extractImageCore Json.null = Except.error () ∧ extractImage Json.null = none :=
  ⟨rfl, (extractImage_total Json.null).2 () rfl⟩

/-- C10: an empty-string caller-supplied credential is treated the same
as an absent one: resolution falls back to the ambient environment
credential in both cases, and generateStudioShot constructs its client
with the same credential for both. -/
theorem resolveApiKey_empty_eq_absent (envKey imageBase64 : String) (bg : BackgroundOption)
    (lighting : LightingOption) (settings : CameraSettings)
    (primaryOutcome fallbackOutcome : Except String Json) :
    resolveApiKey (some "") envKey = envKey ∧
    resolveApiKey none envKey = envKey ∧
    (generateStudioShot imageBase64 bg lighting settings (some "") envKey primaryOutcome fallbackOutcome).credential =
      (generateStudioShot imageBase64 bg lighting settings none envKey primaryOutcome fallbackOutcome).credential := by
  refine ⟨rfl, rfl, ?_⟩
  rw [generateStudioShot_credential_eq, generateStudioShot_credential_eq]
  rfl

/-- C6 counterexample: a response whose only part carries an inline
data field holding the empty string.  The claimed round-trip predicts
the bare data-URI header back; the code instead skips the part (empty
data is falsy) and returns null. -/
theorem extractImage_empty_data_counterexample :
    extractImage (mkResponse [inlinePart ""]) = none ∧
    extractImage (mkResponse [inlinePart ""]) ≠ some ("data:image/png;base64," ++ "") := by
  decide

/-- C6 amended: extractImage scans the content parts in order and
returns the first inline binary payload with NON-EMPTY data re-encoded
as a data URI (for data X it returns exactly the PNG header followed by
X); when no part holds non-empty inline data it returns null, not an
error. -/
theorem extractImage_first_inline (ts : List String) (X : String) (post : List Json)
    (hX : X ≠ "") :
    extractImage (mkResponse (ts.map textPart ++ inlinePart X :: post)) =
      some ("data:image/png;base64," ++ X) ∧
    extractImage (mkResponse (ts.map textPart)) = none := by
  constructor
  · simp [extractImage, extractImageCore_mkResponse, scanParts_skip_texts,
      scanParts_inlinePart X hX]
  · have h0 : scanParts (ts.map textPart) = Except.ok none := by
      have := scanParts_skip_texts ts []
      rwa [List.append_nil] at this
    simp [extractImage, extractImageCore_mkResponse, h0]

/-- C6 witness: a concrete three-part response; the first non-empty
inline payload wins and a text-only response yields null. -/
theorem extractImage_first_inline_witness :
    extractImage (mkResponse [textPart "thinking", inlinePart "QUJD", inlinePart "RFVN"]) =
      some "data:image/png;base64,QUJD" ∧
    extractImage (mkResponse [textPart "thinking"]) = none := by
  have h := extractImage_first_inline ["thinking"] "QUJD" [inlinePart "RFVN"] (by decide)
  exact ⟨h.1, h.2⟩

/-- C7: for any valid background of kind solid, the built primary
instruction text embeds the exact color value verbatim. -/
theorem primaryInstruction_solid_color_verbatim (bg : BackgroundOption)
    (lighting : LightingOption) (settings : CameraSettings)
    (h : bg.type = BackgroundType.solid) :
    containsStr (primaryInstruction bg lighting settings) bg.value := by
  have hbg : hasBgImage bg = false := by simp [hasBgImage, h]
  refine ⟨primaryPromptPre ++ "a solid, flat, matte background of this exact color: ",
    primaryPromptMid1 ++ lighting.value ++ primaryPromptMid2 ++
      lightDirText settings.lightingDirection ++ primaryPromptPost, ?_⟩
  simp [primaryInstruction, hbg, primaryPromptText, bgDescription, h, String.append_assoc]

/-- C7 witness: the solid red background embeds its hex value in the
primary instruction. -/
theorem primaryInstruction_solid_color_verbatim_witness :
    containsStr (primaryInstruction solidSampleBg sampleLighting sampleSettings) "#ff0000" :=
  primaryInstruction_solid_color_verbatim solidSampleBg sampleLighting sampleSettings rfl

/-- The primary instruction always embeds the resolved light-direction
phrase, in both template variants. -/
theorem primaryInstruction_contains_lightDir (bg : BackgroundOption)
    (lighting : LightingOption) (settings : CameraSettings) :
    containsStr (primaryInstruction bg lighting settings)
      (lightDirText settings.lightingDirection) := by
  by_cases hbg : hasBgImage bg
  · refine ⟨imagePromptPre ++ lighting.value ++ imagePromptMid, imagePromptPost, ?_⟩
    simp [primaryInstruction, hbg, imagePromptText, String.append_assoc]
  · refine ⟨primaryPromptPre ++ bgDescription bg ++ primaryPromptMid1 ++ lighting.value ++
      primaryPromptMid2, primaryPromptPost, ?_⟩
    simp [primaryInstruction, hbg, primaryPromptText, String.append_assoc]

/-- C8: for every lighting direction in the enumerated record the built
instruction text contains the corresponding descriptive phrase, and for
any direction value outside the record it contains the generic phrase
"professional studio lighting". -/
theorem primaryInstruction_lighting_direction (bg : BackgroundOption)
    (lighting : LightingOption) (settings : CameraSettings) :
    (∀ phrase, directionMap settings.lightingDirection = some phrase →
      containsStr (primaryInstruction bg lighting settings) phrase) ∧
    (directionMap settings.lightingDirection = none →
      containsStr (primaryInstruction bg lighting settings) "professional studio lighting") := by
  constructor
  · intro phrase hp
    have he : lightDirText settings.lightingDirection = phrase := by
      simp [lightDirText, hp]
    exact he ▸ primaryInstruction_contains_lightDir bg lighting settings
  · intro hn
    have he : lightDirText settings.lightingDirection = "professional studio lighting" := by
      simp [lightDirText, hn]
    exact he ▸ primaryInstruction_contains_lightDir bg lighting settings

/-- C8 witness: the in-set direction left yields its phrase and an
out-of-set direction yields the generic phrase. -/
theorem primaryInstruction_lighting_direction_witness :
    containsStr
      (primaryInstruction sampleBg sampleLighting
        { aspectRatio := "1:1", lightingDirection := "left" })
      "coming from the left side" ∧
    containsStr
      (primaryInstruction sampleBg sampleLighting
        { aspectRatio := "1:1", lightingDirection := "diagonal" })
      "professional studio lighting" :=
  ⟨(primaryInstruction_lighting_direction sampleBg sampleLighting
      { aspectRatio := "1:1", lightingDirection := "left" }).1
      "coming from the left side" rfl,
   (primaryInstruction_lighting_direction sampleBg sampleLighting
      { aspectRatio := "1:1", lightingDirection := "diagonal" }).2 rfl⟩

/-- C1: if the primary call resolves with a response from which an
inline binary payload is extracted, generateStudioShot returns that
data URI and the secondary model is never invoked, whatever the
fallback oracle would have answered. -/
theorem generateStudioShot_primary_image (imageBase64 : String) (bg : BackgroundOption)
    (lighting : LightingOption) (settings : CameraSettings) (apiKey : Option String)
    (envKey : String) (resp : Json) (fallbackOutcome : Except String Json) (img : String)
    (h : extractImage resp = some img) :
    (generateStudioShot imageBase64 bg lighting settings apiKey envKey
        (Except.ok resp) fallbackOutcome).result = Except.ok img ∧
    List.map ModelCall.model
        (generateStudioShot imageBase64 bg lighting settings apiKey envKey
          (Except.ok resp) fallbackOutcome).calls = ["gemini-3-pro-image-preview"] := by
  constructor <;> simp [generateStudioShot, h]

/-- C1 witness: a concrete primary success with an inline payload. -/
theorem generateStudioShot_primary_image_witness :
    (generateStudioShot "IMG" sampleBg sampleLighting sampleSettings none "ENVKEY"
        (Except.ok (mkResponse [inlinePart "QUJD"])) (Except.error "unused")).result =
      Except.ok "data:image/png;base64,QUJD" ∧
    List.map ModelCall.model
        (generateStudioShot "IMG" sampleBg sampleLighting sampleSettings none "ENVKEY"
          (Except.ok (mkResponse [inlinePart "QUJD"])) (Except.error "unused")).calls =
      ["gemini-3-pro-image-preview"] :=
  generateStudioShot_primary_image "IMG" sampleBg sampleLighting sampleSettings none "ENVKEY"
    (mkResponse [inlinePart "QUJD"]) (Except.error "unused") "data:image/png;base64,QUJD"
    (by decide)

/-- C2: when the primary call throws, or resolves without an extractable
image, the secondary model is invoked exactly once, its request has no
image-size or aspect-ratio configuration block (while the primary call
carries one), and its instruction is the simplified flash prompt. -/
theorem generateStudioShot_fallback_once (imageBase64 : String) (bg : BackgroundOption)
    (lighting : LightingOption) (settings : CameraSettings) (apiKey : Option String)
    (envKey : String) (primaryOutcome fallbackOutcome : Except String Json)
    (h : (∃ e, primaryOutcome = Except.error e) ∨
         (∃ resp, primaryOutcome = Except.ok resp ∧ extractImage resp = none)) :
    ∃ pc fc,
      (generateStudioShot imageBase64 bg lighting settings apiKey envKey
          primaryOutcome fallbackOutcome).calls = [pc, fc] ∧
      pc.model = "gemini-3-pro-image-preview" ∧
      pc.config.isSome = true ∧
      fc.model = "gemini-2.5-flash-image" ∧
      fc.config = none ∧
      ReqPart.text (flashInstruction bg lighting) ∈ fc.parts := by
  refine ⟨{ model := "gemini-3-pro-image-preview",
            parts := buildPrimaryParts imageBase64 bg lighting settings,
            config := some { imageSize := "4K", aspectRatio := settings.aspectRatio } },
          { model := "gemini-2.5-flash-image",
            parts := buildFlashParts imageBase64 bg lighting,
            config := none }, ?_, rfl, rfl, rfl, rfl, ?_⟩
  · rcases h with ⟨e, he⟩ | ⟨resp, hr, hx⟩
    · subst he
      cases hf : fallbackAttempt fallbackOutcome <;>
        simp [generateStudioShot, runFallback, hf]
    · subst hr
      cases hf : fallbackAttempt fallbackOutcome <;>
        simp [generateStudioShot, runFallback, hx, hf]
  · by_cases hb : hasBgImage bg <;> simp [buildFlashParts, hb]

/-- C2 witness: a concrete primary failure leads to one flash call with
the simplified prompt and no configuration block. -/
theorem generateStudioShot_fallback_once_witness :
    ∃ pc fc,
      (generateStudioShot "IMG" sampleBg sampleLighting sampleSettings none "ENVKEY"
          (Except.error "403") (Except.ok (mkResponse [inlinePart "QUJD"]))).calls = [pc, fc] ∧
      pc.model = "gemini-3-pro-image-preview" ∧
      pc.config.isSome = true ∧
      fc.model = "gemini-2.5-flash-image" ∧
      fc.config = none ∧
      ReqPart.text (flashInstruction sampleBg sampleLighting) ∈ fc.parts :=
  generateStudioShot_fallback_once "IMG" sampleBg sampleLighting sampleSettings none "ENVKEY"
    (Except.error "403") (Except.ok (mkResponse [inlinePart "QUJD"]))
    (Or.inl ⟨"403", rfl⟩)

/-- C3: when both attempts throw, the propagated message is the
fallback error message when it is non-empty, otherwise the primary
error message when it is non-empty, otherwise the generic message. -/
theorem generateStudioShot_error_propagation (imageBase64 : String) (bg : BackgroundOption)
    (lighting : LightingOption) (settings : CameraSettings) (apiKey : Option String)
    (envKey : String) (pe fe : String) :
    (fe ≠ "" →
      (generateStudioShot imageBase64 bg lighting settings apiKey envKey
          (Except.error pe) (Except.error fe)).result = Except.error fe) ∧
    (fe = "" → pe ≠ "" →
      (generateStudioShot imageBase64 bg lighting settings apiKey envKey
          (Except.error pe) (Except.error fe)).result = Except.error pe) ∧
    (fe = "" → pe = "" →
      (generateStudioShot imageBase64 bg lighting settings apiKey envKey
          (Except.error pe) (Except.error fe)).result =
        Except.error "Failed to generate image.") := by
  refine ⟨fun h1 => ?_, fun h1 h2 => ?_, fun h1 h2 => ?_⟩ <;>
    simp [generateStudioShot, runFallback, fallbackAttempt, terminalMessage, h1, *]

/-- C3 witness: the three propagation cases at concrete messages. -/
theorem generateStudioShot_error_propagation_witness :
    (generateStudioShot "IMG" sampleBg sampleLighting sampleSettings none "K"
        (Except.error "primary down") (Except.error "fallback down")).result =
      Except.error "fallback down" ∧
    (generateStudioShot "IMG" sampleBg sampleLighting sampleSettings none "K"
        (Except.error "primary down") (Except.error "")).result =
      Except.error "primary down" ∧
    (generateStudioShot "IMG" sampleBg sampleLighting sampleSettings none "K"
        (Except.error "") (Except.error "")).result =
      Except.error "Failed to generate image." :=
  ⟨(generateStudioShot_error_propagation "IMG" sampleBg sampleLighting sampleSettings
      none "K" "primary down" "fallback down").1 (by decide),
   (generateStudioShot_error_propagation "IMG" sampleBg sampleLighting sampleSettings
      none "K" "primary down" "").2.1 rfl (by decide),
   (generateStudioShot_error_propagation "IMG" sampleBg sampleLighting sampleSettings
      none "K" "" "").2.2 rfl rfl⟩

/-- C4 counterexample: the refusal text is probed only at the FIRST
content part (line 129 reads parts[0].text).  A response with no inline
binary part whose Sorry-text sits in the second part yields the generic
no-image message, which does not begin with the refusal tag. -/
theorem refusal_text_position_counterexample :
    (∀ p ∈ [Json.obj [], textPart "Sorry, I cannot comply"],
        jsField p "inlineData" = Json.null) ∧
    jsField (textPart "Sorry, I cannot comply") "text" =
      Json.str "Sorry, I cannot comply" ∧
    strStartsWith "Sorry, I cannot comply" "Sorry" = true ∧
    extractImage (mkResponse [Json.obj [], textPart "Sorry, I cannot comply"]) = none ∧
    (generateStudioShot "IMG" sampleBg sampleLighting sampleSettings none "K"
        (Except.error "primary down")
        (Except.ok (mkResponse [Json.obj [], textPart "Sorry, I cannot comply"]))).result =
      Except.error "No image generated by fallback model." ∧
    strStartsWith "No image generated by fallback model." "AI Refusal:" = false := by
  refine ⟨?_, rfl, by decide, by decide, rfl, by decide⟩
  intro p hp
  rcases List.mem_cons.mp hp with rfl | hp2
  · rfl
  · rcases List.mem_cons.mp hp2 with rfl | h3
    · rfl
    · cases h3

/-- C4 amended: if the secondary call resolves with a response that has
no extractable inline binary part and whose FIRST content part carries
text starting with "Sorry", the propagated failure message is the
refusal tag followed by at most the first 100 characters of that text. -/
theorem generateStudioShot_refusal_message (imageBase64 : String) (bg : BackgroundOption)
    (lighting : LightingOption) (settings : CameraSettings) (apiKey : Option String)
    (envKey : String) (pe : String) (resp : Json) (t : String)
    (hx : extractImage resp = none)
    (hfp : firstPartTextE resp = Except.ok (Json.str t))
    (hs : strStartsWith t "Sorry" = true) :
    (generateStudioShot imageBase64 bg lighting settings apiKey envKey
        (Except.error pe) (Except.ok resp)).result =
      Except.error ("AI Refusal: " ++ t.take 100) ∧
    ("AI Refusal: " ++ t.take 100) = "AI Refusal:" ++ (" " ++ t.take 100) ∧
    (t.take 100).length ≤ 100 := by
  have ht : t ≠ "" := by
    intro h0
    rw [h0] at hs
    exact absurd hs (by decide)
  have htr : (t != "") = true := by simpa [bne_iff_ne] using ht
  have hfa : fallbackAttempt (Except.ok resp) =
      Except.error ("AI Refusal: " ++ t.take 100) := by
    simp [fallbackAttempt, hx, hfp, truthy, htr]
  have hne := refusalTag_append_ne_empty (t.take 100)
  refine ⟨?_, ?_, take100_length_le t⟩
  · simp [generateStudioShot, runFallback, hfa, terminalMessage, hne]
  · rw [← String.append_assoc]
    rfl

/-- C4 witness: a concrete first-part Sorry refusal propagates as a
truncated AI Refusal message. -/
theorem generateStudioShot_refusal_message_witness :
    (generateStudioShot "IMG" sampleBg sampleLighting sampleSettings none "K"
        (Except.error "primary down")
        (Except.ok (mkResponse [textPart "Sorry, I cannot comply"]))).result =
      Except.error ("AI Refusal: " ++ ("Sorry, I cannot comply").take 100) ∧
    ("AI Refusal: " ++ ("Sorry, I cannot comply").take 100) =
      "AI Refusal:" ++ (" " ++ ("Sorry, I cannot comply").take 100) ∧
    (("Sorry, I cannot comply").take 100).length ≤ 100 :=
  generateStudioShot_refusal_message "IMG" sampleBg sampleLighting sampleSettings none "K"
    "primary down" (mkResponse [textPart "Sorry, I cannot comply"])
    "Sorry, I cannot comply" (by decide) rfl (by decide)

/-- C5 counterexample: a background of kind image with no imageSrc
takes the single-attachment branch: the request carries exactly one
binary entry, not two. -/
theorem imageBackground_missing_src_counterexample :
    bgImageNoSrc.type = BackgroundType.image ∧
    (binaryEntries (buildPrimaryParts "IMG" bgImageNoSrc sampleLighting sampleSettings)).length = 1 ∧
    (binaryEntries (buildPrimaryParts "IMG" bgImageNoSrc sampleLighting sampleSettings)).length ≠ 2 ∧
    (binaryEntries (buildFlashParts "IMG" bgImageNoSrc sampleLighting)).length = 1 := by
  exact ⟨rfl, rfl, by decide, rfl⟩

/-- C5 amended: when the background kind is image AND a non-empty
imageSrc is present, the attachment list of both request variants has
exactly two binary entries in order (product image, then background
image) and the instruction switches to the two-image composition
template; in every other case the list has exactly one binary entry. -/
theorem attachment_list_shape (imageBase64 : String) (bg : BackgroundOption)
    (lighting : LightingOption) (settings : CameraSettings) :
    (hasBgImage bg = true →
      binaryEntries (buildPrimaryParts imageBase64 bg lighting settings) =
        [("image/jpeg", stripDataUriHeader imageBase64),
         ("image/jpeg", stripDataUriHeader (bg.imageSrc.getD ""))] ∧
      textEntries (buildPrimaryParts imageBase64 bg lighting settings) =
        [imagePromptText lighting.value (lightDirText settings.lightingDirection)] ∧
      binaryEntries (buildFlashParts imageBase64 bg lighting) =
        [("image/jpeg", stripDataUriHeader imageBase64),
         ("image/jpeg", stripDataUriHeader (bg.imageSrc.getD ""))] ∧
      textEntries (buildFlashParts imageBase64 bg lighting) =
        ["Composite product from image 1 into image 2. Keep product exact. High quality."]) ∧
    (hasBgImage bg = false →
      binaryEntries (buildPrimaryParts imageBase64 bg lighting settings) =
        [("image/jpeg", stripDataUriHeader imageBase64)] ∧
      binaryEntries (buildFlashParts imageBase64 bg lighting) =
        [("image/jpeg", stripDataUriHeader imageBase64)]) := by
  constructor
  · intro h
    refine ⟨?_, ?_, ?_, ?_⟩ <;>
      simp [buildPrimaryParts, buildFlashParts, h, binaryEntries, textEntries,
        primaryInstruction, flashInstruction]
  · intro h
    constructor <;>
      simp [buildPrimaryParts, buildFlashParts, h, binaryEntries, textEntries]

/-- C5 witness: a background image source yields two ordered binary
entries and the two-image instruction in both request variants; a
gradient background yields one binary entry. -/
theorem attachment_list_shape_witness :
    binaryEntries (buildPrimaryParts "IMG" bgImageWithSrc sampleLighting sampleSettings) =
      [("image/jpeg", "IMG"), ("image/jpeg", "BGDATA")] ∧
    textEntries (buildPrimaryParts "IMG" bgImageWithSrc sampleLighting sampleSettings) =
      [imagePromptText sampleLighting.value (lightDirText sampleSettings.lightingDirection)] ∧
    textEntries (buildFlashParts "IMG" bgImageWithSrc sampleLighting) =
      ["Composite product from image 1 into image 2. Keep product exact. High quality."] ∧
    binaryEntries (buildPrimaryParts "IMG" sampleBg sampleLighting sampleSettings) =
      [("image/jpeg", "IMG")] := by
  have h1 := (attachment_list_shape "IMG" bgImageWithSrc sampleLighting sampleSettings).1
    (by decide)
  have h2 := (attachment_list_shape "IMG" sampleBg sampleLighting sampleSettings).2
    (by decide)
  exact ⟨h1.1, h1.2.1, h1.2.2.2, h2.1⟩
